import Mathlib

/-!
Match persistence and OAuth state check of omega-strikers-bot.

A shallow embedding of `internal/db/matches.go` and of the state check of
`internal/webserver/discordoauth.go`.

The relational store is a record of three tables, each a list of rows in
insertion order. A statement is a function on the store. A transaction keeps
the store it started from together with a working copy. The outcome of every
call that can fail for a reason outside the tables (begin, a statement, commit,
rollback, a query) is an input of the model.
-/

namespace OmegaStrikers

/-! ## Errors -/

/-- Go `error` values of the persistence layer. `DBError` is the envelope
`&models.DBError{Err: err}`; the other constructors are the causes the store
and the driver report. -/
inductive GoError where
  | ErrNoRows
  | uniqueViolation
  | foreignKeyViolation
  | driver (code : Nat)
  | DBError (Err : GoError)
  deriving DecidableEq, Repr

deriving instance DecidableEq for Except

/-! ## Data model -/

/-- A row of the `players` table, as selected by `getTeamsInMatch`
(`elo,discordID,osuser,lastrankupdate,credits`), which is also `models.Player`. -/
structure Player where
  elo : Int
  DiscordID : String
  osuser : String
  lastrankupdate : Int
  credits : Int
  deriving DecidableEq, Repr

/-- The aggregate `models.Match`: the eight columns of a `matches` row and the
two rosters. -/
structure Match where
  ID : String
  ThreadID : String
  MessageID : String
  VoteMessageID : String
  Timestamp : Int
  State : Int
  Team1Score : Int
  Team2Score : Int
  Team1 : List Player
  Team2 : List Player
  deriving DecidableEq, Repr

/-- A row of the `matches` table. -/
structure MatchRow where
  matchID : String
  threadID : String
  messageID : String
  votemessageID : String
  timestamp : Int
  state : Int
  team1score : Int
  team2score : Int
  deriving DecidableEq, Repr

/-- A row of the `matchesplayers` table. -/
structure RosterRow where
  matchID : String
  playerID : String
  team : Int
  deriving DecidableEq, Repr

/-- The three tables the file reads and writes; `matchesTbl` is the table
`matches` (a reserved word here). -/
structure Store where
  matchesTbl : List MatchRow
  matchesplayers : List RosterRow
  players : List Player
  deriving DecidableEq, Repr

/-- Modelled from the spec: the schema (not part of the Go sources) makes
`matchID` the primary key of `matches`, `(matchID, playerID)` unique in
`matchesplayers`, both columns of `matchesplayers` foreign keys, and the
player's identity key unique in `players`. A store is well formed when its
tables satisfy these constraints. -/
def Store.WellFormed (db : Store) : Prop :=
  (db.matchesTbl.map (fun r => r.matchID)).Nodup ∧
  (db.players.map (fun p => p.DiscordID)).Nodup ∧
  (db.matchesplayers.map (fun r => (r.matchID, r.playerID))).Nodup ∧
  (∀ r ∈ db.matchesplayers, r.matchID ∈ db.matchesTbl.map (fun x => x.matchID)) ∧
  (∀ r ∈ db.matchesplayers, r.playerID ∈ db.players.map (fun p => p.DiscordID))

instance (db : Store) : Decidable db.WellFormed := by
  unfold Store.WellFormed
  infer_instance

/-- Modelled from the spec: the column default of `state` (the schema is not part
of the Go sources); a match starts RUNNING. -/
def defaultState : Int := 0

/-- Modelled from the spec: the column default of `team1score` and `team2score`
(the schema is not part of the Go sources). -/
def defaultScore : Int := 0

/-! ## Statements -/

/-- The row written by the statement of `CreateMatch`
`INSERT INTO matches (matchID,threadID,messageID,votemessageID,timestamp)`:
the five named columns come from the match, the other three take their
defaults. -/
def insertedRow (m : Match) : MatchRow :=
  { matchID := m.ID, threadID := m.ThreadID, messageID := m.MessageID,
    votemessageID := m.VoteMessageID, timestamp := m.Timestamp,
    state := defaultState, team1score := defaultScore, team2score := defaultScore }

/-- Modelled from the spec: `matchID` is the primary key of `matches` (the schema
is not part of the Go sources). The key is taken when a stored row carries it. -/
def matchKeyTaken (db : Store) (matchID : String) : Prop :=
  matchID ∈ db.matchesTbl.map (fun r => r.matchID)

instance (db : Store) (matchID : String) : Decidable (matchKeyTaken db matchID) := by
  unfold matchKeyTaken
  infer_instance

/-- Modelled from the spec: `(matchID, playerID)` is unique in `matchesplayers` (the
schema is not part of the Go sources). The pair is taken when a stored roster
row carries it, on either team. -/
def rosterKeyTaken (db : Store) (matchID playerID : String) : Prop :=
  (matchID, playerID) ∈ db.matchesplayers.map (fun r => (r.matchID, r.playerID))

instance (db : Store) (matchID playerID : String) :
    Decidable (rosterKeyTaken db matchID playerID) := by
  unfold rosterKeyTaken
  infer_instance

/-- Modelled from the spec: both columns of `matchesplayers` are foreign keys (the
schema is not part of the Go sources). The references of a roster row hold
when its match row and its player row are stored. -/
def rosterReferencesHold (db : Store) (matchID playerID : String) : Prop :=
  matchID ∈ db.matchesTbl.map (fun r => r.matchID) ∧
  playerID ∈ db.players.map (fun p => p.DiscordID)

instance (db : Store) (matchID playerID : String) :
    Decidable (rosterReferencesHold db matchID playerID) := by
  unfold rosterReferencesHold
  infer_instance

/-- The match-row insert of `CreateMatch` applied to a store: rejected when the
primary key is taken, a new last row otherwise. -/
def insertMatchRow (db : Store) (m : Match) : Except GoError Store :=
  if matchKeyTaken db m.ID then .error .uniqueViolation
  else .ok { db with matchesTbl := db.matchesTbl ++ [insertedRow m] }

/-- The statement `INSERT INTO matchesplayers (matchID,playerID,team) VALUES (?,?,?)`
applied to a store: rejected when the pair is taken or a reference is missing,
a new last row otherwise. -/
def insertRosterRow (db : Store) (matchID playerID : String) (team : Int) :
    Except GoError Store :=
  if rosterKeyTaken db matchID playerID then .error .uniqueViolation
  else if ¬ rosterReferencesHold db matchID playerID then .error .foreignKeyViolation
  else .ok { db with matchesplayers := db.matchesplayers ++ [⟨matchID, playerID, team⟩] }

/-! ## Transactions -/

/-- What the engine and the driver do during one call of `CreateMatch`, apart
from the constraint checks: the outcome of `db.Beginx`, of the k-th statement
sent on the transaction (0 is the match-row insert, then the roster inserts
in order), of `tx.Commit` and of `tx.Rollback`. `none` is success. -/
structure TxEnv where
  begin : Option GoError
  exec : Nat → Option GoError
  commit : Option GoError
  rollback : Option GoError

/-- An open transaction: the store as it was at `Beginx` and the working copy
holding the statements applied so far. -/
structure Tx where
  base : Store
  work : Store
  deriving DecidableEq, Repr

/-- The call `db.Beginx()`. -/
def Beginx (env : TxEnv) (db : Store) : Except GoError Tx :=
  match env.begin with
  | some err => .error err
  | none => .ok { base := db, work := db }

/-- One statement sent on a transaction: it fails with the driver's error when
the environment says so, with the constraint error when the store rejects it,
and changes the working copy otherwise. A failed statement changes nothing. -/
def Tx.run (tx : Tx) (fault : Option GoError) (stmt : Store → Except GoError Store) :
    Option GoError × Tx :=
  match fault with
  | some err => (some err, tx)
  | none =>
    match stmt tx.work with
    | .error err => (some err, tx)
    | .ok work => (none, { tx with work := work })

/-- The call `tx.Commit()`: on success the working copy becomes the store; on
failure the transaction stays open. -/
def Tx.Commit (tx : Tx) (env : TxEnv) : Except GoError Store :=
  match env.commit with
  | some err => .error err
  | none => .ok tx.work

/-- The call `tx.Rollback()`: on success the store is the one the transaction
started from. A rollback that reports an error has undone nothing: the
statements applied so far stay in the store. -/
def Tx.Rollback (tx : Tx) (env : TxEnv) : Option GoError × Store :=
  match env.rollback with
  | some err => (some err, tx.work)
  | none => (none, tx.base)

/-- What a call of `CreateMatch` leaves behind: the returned error (`none` is
`nil`), the store afterwards, and how many times `tx.Rollback` was called. -/
structure CreateResult where
  err : Option GoError
  db : Store
  rollbacks : Nat
  deriving DecidableEq, Repr

/-- The block repeated after every failing step of `CreateMatch`:
`err2 := tx.Rollback(); if err2 != nil { return DBError{err2} }; return DBError{err}`. -/
def rollbackAndReturn (env : TxEnv) (tx : Tx) (err : GoError) : CreateResult :=
  match tx.Rollback env with
  | (some err2, db) => { err := some (.DBError err2), db := db, rollbacks := 1 }
  | (none, db) => { err := some (.DBError err), db := db, rollbacks := 1 }

/-- One of the two roster loops of `CreateMatch`: `k` is the number of the next
statement. The result is either the value returned from inside the loop, or
the transaction after the last insert. -/
def insertTeam (env : TxEnv) (matchID : String) (team : Int) :
    List Player → Nat → Tx → CreateResult ⊕ Tx
  | [], _, tx => .inr tx
  | player :: rest, k, tx =>
    match tx.run (env.exec k) (fun db => insertRosterRow db matchID player.DiscordID team) with
    | (some err, tx) => .inl (rollbackAndReturn env tx err)
    | (none, tx) => insertTeam env matchID team rest (k + 1) tx

/-- The function `CreateMatch` of `matches.go`. -/
def CreateMatch (env : TxEnv) (db : Store) (m : Match) : CreateResult :=
  match Beginx env db with
  | .error err => { err := some (.DBError err), db := db, rollbacks := 0 }
  | .ok tx =>
    match tx.run (env.exec 0) (fun db => insertMatchRow db m) with
    | (some err, tx) => rollbackAndReturn env tx err
    | (none, tx) =>
      match insertTeam env m.ID 1 m.Team1 1 tx with
      | .inl ret => ret
      | .inr tx =>
        match insertTeam env m.ID 2 m.Team2 (1 + m.Team1.length) tx with
        | .inl ret => ret
        | .inr tx =>
          match tx.Commit env with
          | .error err => rollbackAndReturn env tx err
          | .ok db => { err := none, db := db, rollbacks := 0 }

/-- The function `UpdateMatch` of `matches.go`: one statement
`UPDATE matches SET state, team1score, team2score, votemessageID WHERE matchID`,
sent outside any transaction. `fault` is the driver's outcome for the
statement; the result is the returned error and the store afterwards. -/
def UpdateMatch (fault : Option GoError) (db : Store) (m : Match) : Option GoError × Store :=
  match fault with
  | some err => (some (.DBError err), db)
  | none =>
    (none, { db with matchesTbl := db.matchesTbl.map (fun r =>
      if r.matchID = m.ID then
        { r with state := m.State, team1score := m.Team1Score,
                 team2score := m.Team2Score, votemessageID := m.VoteMessageID }
      else r) })

/-! ## Queries -/

/-- The call `db.Get(&dest, query, ...)` on the rows the query selects: the
driver's error if there is one, `sql.ErrNoRows` when no row is selected, the
first row otherwise. -/
def dbGet {α : Type} (fault : Option GoError) (rows : List α) : Except GoError α :=
  match fault with
  | some err => .error err
  | none =>
    match rows with
    | [] => .error .ErrNoRows
    | r :: _ => .ok r

/-- The call `db.Select(&dest, query, ...)` on the rows the query selects: all
of them, possibly none, unless the driver reports an error. -/
def dbSelect {α : Type} (fault : Option GoError) (rows : List α) : Except GoError (List α) :=
  match fault with
  | some err => .error err
  | none => .ok rows

/-- A `matches` row scanned into a `models.Match` by `SELECT *`; the rosters are
not columns and stay empty. -/
def MatchRow.scan (r : MatchRow) : Match :=
  { ID := r.matchID, ThreadID := r.threadID, MessageID := r.messageID,
    VoteMessageID := r.votemessageID, Timestamp := r.timestamp, State := r.state,
    Team1Score := r.team1score, Team2Score := r.team2score, Team1 := [], Team2 := [] }

/-- The columns of an aggregate, as a row. -/
def Match.row (m : Match) : MatchRow :=
  { matchID := m.ID, threadID := m.ThreadID, messageID := m.MessageID,
    votemessageID := m.VoteMessageID, timestamp := m.Timestamp, state := m.State,
    team1score := m.Team1Score, team2score := m.Team2Score }

/-- The rows of `SELECT ... FROM players JOIN matchesplayers ON
matchesplayers.playerID = players.discordID WHERE matchID=? AND team=?`: an inner
join, so a roster row without a player row contributes nothing. -/
def teamQuery (db : Store) (matchID : String) (team : Int) : List Player :=
  (db.matchesplayers.filter (fun r => r.matchID = matchID ∧ r.team = team)).flatMap
    (fun r => db.players.filter (fun p => r.playerID = p.DiscordID))

/-- The function `getTeamsInMatch` of `matches.go`. -/
def getTeamsInMatch (fault : Option GoError) (db : Store) (m : Match) :
    Except GoError Match :=
  match dbSelect fault (teamQuery db m.ID 1) with
  | .error err => .error (.DBError err)
  | .ok team1 =>
    match dbSelect fault (teamQuery db m.ID 2) with
    | .error err => .error (.DBError err)
    | .ok team2 => .ok { m with Team1 := team1, Team2 := team2 }

/-- The function `GetMatchByThreadID` of `matches.go`. -/
def GetMatchByThreadID (fault : Option GoError) (db : Store) (threadID : String) :
    Except GoError Match :=
  match dbGet fault ((db.matchesTbl.filter (fun r => r.threadID = threadID)).map MatchRow.scan) with
  | .error err => .error (.DBError err)
  | .ok m =>
    match getTeamsInMatch fault db m with
    | .error err => .error (.DBError err)
    | .ok m => .ok m

/-- The function `GetMatchByID` of `matches.go`. -/
def GetMatchByID (fault : Option GoError) (db : Store) (matchID : String) :
    Except GoError Match :=
  match dbGet fault ((db.matchesTbl.filter (fun r => r.matchID = matchID)).map MatchRow.scan) with
  | .error err => .error (.DBError err)
  | .ok m =>
    match getTeamsInMatch fault db m with
    | .error err => .error (.DBError err)
    | .ok m => .ok m

/-- The loop `for _, match := range matches { err = getTeamsInMatch(ctx, match) ... }`
shared by the two list functions. -/
def fillTeams (fault : Option GoError) (db : Store) : List Match → Except GoError (List Match)
  | [] => .ok []
  | m :: rest =>
    match getTeamsInMatch fault db m with
    | .error err => .error (.DBError err)
    | .ok m =>
      match fillTeams fault db rest with
      | .error err => .error err
      | .ok ms => .ok (m :: ms)

/-- The rows of `SELECT * FROM matches WHERE state=0 ORDER BY timestamp ASC LIMIT 50`. -/
def runningQuery (db : Store) : List MatchRow :=
  ((db.matchesTbl.filter (fun r => r.state = 0)).insertionSort
    (fun a b => a.timestamp ≤ b.timestamp)).take 50

/-- The function `GetRunningMatchesOrderedByTimestamp` of `matches.go`. -/
def GetRunningMatchesOrderedByTimestamp (fault : Option GoError) (db : Store) :
    Except GoError (List Match) :=
  match dbSelect fault ((runningQuery db).map MatchRow.scan) with
  | .error err => .error (.DBError err)
  | .ok ms => fillTeams fault db ms

/-- The function `GetWaitingForVotesMatches` of `matches.go`. -/
def GetWaitingForVotesMatches (fault : Option GoError) (db : Store) :
    Except GoError (List Match) :=
  match dbSelect fault ((db.matchesTbl.filter (fun r => r.state = -1)).map MatchRow.scan) with
  | .error err => .error (.DBError err)
  | .ok ms => fillTeams fault db ms

/-- The rows counted by `SELECT COUNT(*) FROM matches JOIN matchesplayers ON
matches.matchID = matchesplayers.matchID WHERE playerID=? and state<=0`. -/
def activeRows (db : Store) (playerID : String) : List (MatchRow × RosterRow) :=
  (db.matchesTbl.flatMap (fun mr =>
    (db.matchesplayers.filter (fun r => mr.matchID = r.matchID)).map (fun r => (mr, r)))).filter
    (fun x => x.2.playerID = playerID ∧ x.1.state ≤ 0)

/-- The function `IsPlayerInMatch` of `matches.go`. -/
def IsPlayerInMatch (fault : Option GoError) (db : Store) (p : Player) : Except GoError Bool :=
  match fault with
  | some err => .error (.DBError err)
  | none =>
    let count : Int := (activeRows db p.DiscordID).length
    .ok (decide (count > 0))


/-! ## The steps of `CreateMatch`, without the error handling -/

/-- The roster inserts of one team, sent in order on a transaction until one
fails: the first error, if any, and the transaction at that point. `k` is the
number of the next statement. -/
def rosterSteps (env : TxEnv) (matchID : String) (team : Int) :
    List Player → Nat → Tx → Option GoError × Tx
  | [], _, tx => (none, tx)
  | player :: rest, k, tx =>
    match tx.run (env.exec k) (fun db => insertRosterRow db matchID player.DiscordID team) with
    | (some err, tx) => (some err, tx)
    | (none, tx) => rosterSteps env matchID team rest (k + 1) tx

/-- The statements of `CreateMatch` (match row, Team1 rows, Team2 rows) sent in
order on a fresh transaction until one fails. -/
def writeSteps (env : TxEnv) (db : Store) (m : Match) : Option GoError × Tx :=
  match ({ base := db, work := db } : Tx).run (env.exec 0) (fun db => insertMatchRow db m) with
  | (some err, tx) => (some err, tx)
  | (none, tx) =>
    match rosterSteps env m.ID 1 m.Team1 1 tx with
    | (some err, tx) => (some err, tx)
    | (none, tx) => rosterSteps env m.ID 2 m.Team2 (1 + m.Team1.length) tx

/-- The original error of the first failing step of a started transaction: the
match-row insert, a roster insert, or the commit; `none` when every step
succeeds. -/
def firstStepError (env : TxEnv) (db : Store) (m : Match) : Option GoError :=
  match writeSteps env db m with
  | (some err, _) => some err
  | (none, _) => env.commit

/-- The roster rows `CreateMatch` writes for one team. -/
def rosterRows (matchID : String) (team : Int) (players : List Player) : List RosterRow :=
  players.map (fun p => ⟨matchID, p.DiscordID, team⟩)

/-- The join of the roster rows written for a team with `players`. -/
def joinRoster (players : List Player) (matchID : String) (team : Int) (ps : List Player) :
    List Player :=
  (rosterRows matchID team ps).flatMap
    (fun r => players.filter (fun p => r.playerID = p.DiscordID))

/-- The aggregate a point read assembles for a match just created: the scanned
row with the two joined rosters. -/
def readBack (db : Store) (m : Match) : Match :=
  { (insertedRow m).scan with
      Team1 := joinRoster db.players m.ID 1 m.Team1,
      Team2 := joinRoster db.players m.ID 2 m.Team2 }

/-! ## Sample data -/

/-- Four sample players. -/
def samplePlayer (n : Nat) : Player :=
  { elo := 1000 + n, DiscordID := "p" ++ toString n, osuser := "u" ++ toString n,
    lastrankupdate := 0, credits := 0 }

/-- A store holding the four sample players and no match. -/
def sampleStore : Store :=
  { matchesTbl := [], matchesplayers := [],
    players := [samplePlayer 1, samplePlayer 2, samplePlayer 3, samplePlayer 4] }

/-- An environment in which nothing fails. -/
def calmEnv : TxEnv :=
  { begin := none, exec := fun _ => none, commit := none, rollback := none }

/-- A two-against-two match in state RUNNING with scores 0. -/
def sampleMatch : Match :=
  { ID := "m1", ThreadID := "t1", MessageID := "msg1", VoteMessageID := "vote1",
    Timestamp := 100, State := 0, Team1Score := 0, Team2Score := 0,
    Team1 := [samplePlayer 1, samplePlayer 2], Team2 := [samplePlayer 3, samplePlayer 4] }

/-- An environment in which the first Team2 insert of a two-against-two match
(statement 3) fails and the rollback succeeds. -/
def team2FailEnv : TxEnv :=
  { begin := none, exec := fun k => if k = 3 then some (.driver 1) else none,
    commit := none, rollback := none }

/-- An environment in which the first Team2 insert of a two-against-two match
fails and the rollback fails too, with another error. -/
def brokenRollbackEnv : TxEnv :=
  { begin := none, exec := fun k => if k = 3 then some (.driver 1) else none,
    commit := none, rollback := some (.driver 2) }

/-- An environment in which the transaction cannot be started. -/
def noBeginEnv : TxEnv :=
  { begin := some (.driver 7), exec := fun _ => none, commit := none, rollback := none }

/-- The sample store after the sample match has been created. -/
def storeWithMatch : Store := (CreateMatch calmEnv sampleStore sampleMatch).db

/-! ## OAuth state check -/

/-- The string-valued entries of `session.Values`. -/
structure Session where
  Values : List (String × String)
  deriving DecidableEq, Repr

/-- The Go index expression `m[k]` on a `map[string]string`: the value stored
under the key, the zero value `""` when the key is absent. -/
def mapIndex (m : List (String × String)) (k : String) : String :=
  match m.lookup k with
  | some v => v
  | none => ""

/-- The Go assignment `m[k] = v` on a `map[string]string`. -/
def mapAssign (m : List (String × String)) (k v : String) : List (String × String) :=
  (k, v) :: m.filter (fun kv => kv.1 ≠ k)

/-- What a handler does with the request: it writes a response, redirects, or
goes on to the token exchange `discordoauth2.Exchange` with the given code. -/
inductive Reply where
  | written (status : Nat) (body : String)
  | redirect (url : String) (status : Nat)
  | exchange (code : String)
  deriving DecidableEq, Repr

/-- The function `clearAuthorizedStates` of `discordoauth.go`: the map is
replaced by an empty one. -/
def clearAuthorizedStates (_authorizedStates : List (String × String)) : List (String × String) :=
  []

/-- The function `authHandler` of `discordoauth.go`. `sessionGet` is the result
of `store.Get(r, "session")`, `sessionID` and `state` are the two fresh UUIDs,
`authURL` is `discordoauth2.AuthCodeURL`. The result is the reply, the map
afterwards and the session afterwards. -/
def authHandler (sessionGet : Except String Session) (authorizedStates : List (String × String))
    (sessionID state : String) (authURL : String → String) :
    Reply × List (String × String) × Option Session :=
  match sessionGet with
  | .error err => (.written 500 err, authorizedStates, none)
  | .ok session =>
    match session.Values.lookup "discordID" with
    | some _ => (.redirect "/" 307, authorizedStates, some session)
    | none =>
      (.redirect (authURL state) 307, mapAssign authorizedStates state sessionID,
        some { Values := mapAssign session.Values "ID" sessionID })

/-- The function `redirectHandler` of `discordoauth.go`, up to the call of
`discordoauth2.Exchange`. `sessionGet` is the result of `store.Get(r, "session")`,
`formState` and `formCode` are `r.FormValue("state")` and `r.FormValue("code")`. -/
def redirectHandler (sessionGet : Except String Session)
    (authorizedStates : List (String × String)) (formState formCode : String) : Reply :=
  match sessionGet with
  | .error err => .written 500 err
  | .ok session =>
    let sessionID : String :=
      match session.Values.lookup "ID" with
      | some sessionIDraw => sessionIDraw
      | none => ""
    let state := formState
    if mapIndex authorizedStates state ≠ sessionID then
      .written 400 "State does not match."
    else
      .exchange formCode

/-- The sample match handed to `CreateMatch` in state AWAITING_VOTES with
scores already set. -/
def votedMatch : Match :=
  { sampleMatch with State := -1, Team1Score := 3, Team2Score := 1 }

/-- A second match announced in the thread of the sample match. -/
def rematch : Match :=
  { sampleMatch with ID := "m2", MessageID := "msg2", VoteMessageID := "vote2", Timestamp := 200 }

/-- The sample match moved to a finalized state with scores and a new vote
message, and with the two rosters swapped. -/
def finishedMatch : Match :=
  { sampleMatch with
      State := 1, Team1Score := 3, Team2Score := 2, VoteMessageID := "vote9",
      ThreadID := "other", MessageID := "other", Timestamp := 999,
      Team1 := sampleMatch.Team2, Team2 := sampleMatch.Team1 }

/-- A scanned match with both rosters read from the store. -/
def withTeams (db : Store) (m : Match) : Match :=
  { m with Team1 := teamQuery db m.ID 1, Team2 := teamQuery db m.ID 2 }

/-- A match row of the given identifier, timestamp and state. -/
def sampleRow (matchID : String) (timestamp state : Int) : MatchRow :=
  { matchID := matchID, threadID := "t-" ++ matchID, messageID := "msg", votemessageID := "vote",
    timestamp := timestamp, state := state, team1score := 0, team2score := 0 }

/-- A store with two running matches (the younger one stored first), two
matches awaiting votes and a finished one. Player 1 is in a running match,
player 2 in one awaiting votes, player 3 in the finished one, player 4 in
none. -/
def busyStore : Store :=
  { matchesTbl := [sampleRow "a" 30 0, sampleRow "b" 10 (-1), sampleRow "c" 20 0,
      sampleRow "d" 5 1, sampleRow "e" 40 (-1)],
    matchesplayers := [⟨"a", "p1", 1⟩, ⟨"b", "p2", 1⟩, ⟨"d", "p3", 2⟩, ⟨"d", "p1", 1⟩],
    players := [samplePlayer 1, samplePlayer 2, samplePlayer 3, samplePlayer 4] }

/-! ## Supporting lemmas: transactions -/

theorem Tx.run_base (tx : Tx) (fault : Option GoError) (stmt : Store → Except GoError Store) :
    (tx.run fault stmt).2.base = tx.base := by
  unfold Tx.run
  split
  · rfl
  · split <;> rfl

theorem Tx.run_none {tx tx' : Tx} {fault : Option GoError} {stmt : Store → Except GoError Store}
    (h : tx.run fault stmt = (none, tx')) :
    fault = none ∧ ∃ w, stmt tx.work = .ok w ∧ tx' = { tx with work := w } := by
  unfold Tx.run at h
  split at h
  · simp at h
  · split at h
    · simp at h
    · rename_i w hw
      simp only [Prod.mk.injEq, true_and] at h
      exact ⟨rfl, w, hw, h.symm⟩

theorem Tx.run_fault (tx : Tx) (err : GoError) (stmt : Store → Except GoError Store) :
    tx.run (some err) stmt = (some err, tx) := rfl

theorem insertTeam_eq (env : TxEnv) (matchID : String) (team : Int) (players : List Player)
    (k : Nat) (tx : Tx) :
    insertTeam env matchID team players k tx =
      match rosterSteps env matchID team players k tx with
      | (some err, tx') => .inl (rollbackAndReturn env tx' err)
      | (none, tx') => .inr tx' := by
  induction players generalizing k tx with
  | nil => rfl
  | cons p rest ih =>
    simp only [insertTeam, rosterSteps]
    split
    · rfl
    · exact ih _ _

theorem rosterSteps_base (env : TxEnv) (matchID : String) (team : Int) (players : List Player)
    (k : Nat) (tx : Tx) :
    (rosterSteps env matchID team players k tx).2.base = tx.base := by
  induction players generalizing k tx with
  | nil => rfl
  | cons p rest ih =>
    simp only [rosterSteps]
    have hb := Tx.run_base tx (env.exec k)
      (fun db => insertRosterRow db matchID p.DiscordID team)
    split
    · rename_i err tx1 h
      rw [h] at hb
      exact hb
    · rename_i tx1 h
      rw [h] at hb
      rw [ih, ← hb]


theorem CreateMatch_eq (env : TxEnv) (db : Store) (m : Match) :
    CreateMatch env db m =
      match env.begin with
      | some err => { err := some (.DBError err), db := db, rollbacks := 0 }
      | none =>
        match writeSteps env db m with
        | (some err, tx) => rollbackAndReturn env tx err
        | (none, tx) =>
          match env.commit with
          | some err => rollbackAndReturn env tx err
          | none => { err := none, db := tx.work, rollbacks := 0 } := by
  unfold CreateMatch Beginx writeSteps
  cases env.begin with
  | some e => rfl
  | none =>
    simp only [insertTeam_eq, Tx.Commit]
    cases h0 : ({ base := db, work := db } : Tx).run (env.exec 0) (fun db => insertMatchRow db m) with
    | mk e0 tx0 =>
      cases e0 with
      | some e => rfl
      | none =>
        simp only []
        cases h1 : rosterSteps env m.ID 1 m.Team1 1 tx0 with
        | mk e1 tx1 =>
          cases e1 with
          | some e => rfl
          | none =>
            simp only []
            cases h2 : rosterSteps env m.ID 2 m.Team2 (1 + m.Team1.length) tx1 with
            | mk e2 tx2 =>
              cases e2 with
              | some e => rfl
              | none =>
                simp only []
                cases env.commit <;> rfl

theorem insertRosterRow_ok {db w : Store} {matchID playerID : String} {team : Int}
    (h : insertRosterRow db matchID playerID team = .ok w) :
    w = { db with matchesplayers := db.matchesplayers ++ [⟨matchID, playerID, team⟩] } ∧
    playerID ∈ db.players.map (fun p => p.DiscordID) ∧
    matchID ∈ db.matchesTbl.map (fun r => r.matchID) ∧
    (matchID, playerID) ∉ db.matchesplayers.map (fun r => (r.matchID, r.playerID)) := by
  unfold insertRosterRow at h
  split at h
  · simp at h
  · rename_i hu
    split at h
    · simp at h
    · rename_i hp
      simp only [Except.ok.injEq] at h
      have hp' := not_not.mp hp
      exact ⟨h.symm, hp'.2, hp'.1, hu⟩

theorem rosterSteps_ok (env : TxEnv) (matchID : String) (team : Int) (players : List Player)
    (k : Nat) (tx tx' : Tx) (h : rosterSteps env matchID team players k tx = (none, tx')) :
    tx'.work = { tx.work with
      matchesplayers := tx.work.matchesplayers ++ rosterRows matchID team players } ∧
    tx'.base = tx.base ∧
    ∀ p ∈ players, p.DiscordID ∈ tx.work.players.map (fun q => q.DiscordID) := by
  induction players generalizing k tx with
  | nil =>
    simp only [rosterSteps, Prod.mk.injEq, true_and] at h
    subst h
    simp [rosterRows]
  | cons p rest ih =>
    simp only [rosterSteps] at h
    split at h
    · simp at h
    · rename_i tx1 h1
      obtain ⟨_, w, hw, htx1⟩ := Tx.run_none h1
      obtain ⟨hw1, hp, _, _⟩ := insertRosterRow_ok hw
      obtain ⟨ih1, ih2, ih3⟩ := ih _ _ h
      subst htx1
      subst hw1
      refine ⟨?_, ?_, ?_⟩
      · rw [ih1]
        simp [rosterRows]
      · rw [ih2]
      · intro q hq
        rcases List.mem_cons.mp hq with rfl | hq
        · exact hp
        · exact ih3 q hq

theorem rosterSteps_forced (env : TxEnv) (matchID : String) (team : Int) (players : List Player)
    (k j : Nat) (tx : Tx) (e : GoError) (hj : j < players.length)
    (he : env.exec (k + j) = some e) :
    (rosterSteps env matchID team players k tx).1 ≠ none := by
  induction players generalizing k j tx with
  | nil => simp at hj
  | cons p rest ih =>
    simp only [rosterSteps]
    split
    · simp
    · rename_i tx1 h1
      cases j with
      | zero =>
        simp only [Nat.add_zero] at he
        rw [he, Tx.run_fault] at h1
        simp at h1
      | succ j =>
        apply ih (k + 1) j tx1
        · simpa using hj
        · rw [← he]; congr 1; omega

theorem insertMatchRow_ok {db w : Store} {m : Match} (h : insertMatchRow db m = .ok w) :
    w = { db with matchesTbl := db.matchesTbl ++ [insertedRow m] } ∧
    m.ID ∉ db.matchesTbl.map (fun r => r.matchID) := by
  unfold insertMatchRow at h
  split at h
  · simp at h
  · rename_i hu
    simp only [Except.ok.injEq] at h
    exact ⟨h.symm, hu⟩

theorem writeSteps_base (env : TxEnv) (db : Store) (m : Match) :
    (writeSteps env db m).2.base = db := by
  unfold writeSteps
  have h0 := Tx.run_base { base := db, work := db } (env.exec 0) (fun db => insertMatchRow db m)
  split
  · rename_i err tx hrun
    rw [hrun] at h0
    exact h0
  · rename_i tx0 hrun
    rw [hrun] at h0
    have h1 := rosterSteps_base env m.ID 1 m.Team1 1 tx0
    split
    · rename_i err tx1 hr1
      rw [hr1] at h1
      exact h1.trans h0
    · rename_i tx1 hr1
      rw [hr1] at h1
      rw [rosterSteps_base]
      exact h1.trans h0

theorem writeSteps_ok (env : TxEnv) (db : Store) (m : Match) (tx : Tx)
    (h : writeSteps env db m = (none, tx)) :
    m.ID ∉ db.matchesTbl.map (fun r => r.matchID) ∧
    tx.work = { matchesTbl := db.matchesTbl ++ [insertedRow m],
                matchesplayers := db.matchesplayers ++ rosterRows m.ID 1 m.Team1 ++
                  rosterRows m.ID 2 m.Team2,
                players := db.players } ∧
    ∀ p ∈ m.Team1 ++ m.Team2, p.DiscordID ∈ db.players.map (fun q => q.DiscordID) := by
  unfold writeSteps at h
  split at h
  · simp at h
  · rename_i tx0 h0
    obtain ⟨_, w, hw, htx0⟩ := Tx.run_none h0
    obtain ⟨hw1, hid⟩ := insertMatchRow_ok hw
    split at h
    · simp at h
    · rename_i tx1 h1
      obtain ⟨a1, _, a3⟩ := rosterSteps_ok _ _ _ _ _ _ _ h1
      obtain ⟨b1, _, b3⟩ := rosterSteps_ok _ _ _ _ _ _ _ h
      subst htx0
      subst hw1
      refine ⟨hid, ?_, ?_⟩
      · rw [b1, a1]
      · intro p hp
        rcases List.mem_append.mp hp with hp | hp
        · exact a3 p hp
        · have := b3 p hp
          rw [a1] at this
          exact this


/-! ## Supporting lemmas: `CreateMatch` -/

theorem rollbackAndReturn_err (env : TxEnv) (tx : Tx) (err : GoError) :
    (rollbackAndReturn env tx err).err =
      some (.DBError (match env.rollback with | some err2 => err2 | none => err)) ∧
    (rollbackAndReturn env tx err).rollbacks = 1 ∧
    (env.rollback = none → (rollbackAndReturn env tx err).db = tx.base) := by
  unfold rollbackAndReturn Tx.Rollback
  cases env.rollback <;> simp

/-- The store after a successful `CreateMatch`: the row of the match and the
roster rows of both teams appended to the tables, every roster player known
to `players`, the identifier new. -/
theorem CreateMatch_ok (env : TxEnv) (db : Store) (m : Match)
    (h : (CreateMatch env db m).err = none) :
    m.ID ∉ db.matchesTbl.map (fun r => r.matchID) ∧
    (CreateMatch env db m).db =
      { matchesTbl := db.matchesTbl ++ [insertedRow m],
        matchesplayers := db.matchesplayers ++ rosterRows m.ID 1 m.Team1 ++
          rosterRows m.ID 2 m.Team2,
        players := db.players } ∧
    ∀ p ∈ m.Team1 ++ m.Team2, p.DiscordID ∈ db.players.map (fun q => q.DiscordID) := by
  rw [CreateMatch_eq] at h ⊢
  cases hb : env.begin with
  | some e => rw [hb] at h; simp at h
  | none =>
    rw [hb] at h
    simp only at h ⊢
    cases hw : writeSteps env db m with
    | mk e tx =>
      rw [hw] at h
      cases e with
      | some e =>
        simp only at h
        rw [(rollbackAndReturn_err env tx e).1] at h
        simp at h
      | none =>
        simp only at h ⊢
        cases hc : env.commit with
        | some e =>
          rw [hc] at h
          simp only at h
          rw [(rollbackAndReturn_err env tx e).1] at h
          simp at h
        | none =>
          obtain ⟨h1, h2, h3⟩ := writeSteps_ok env db m tx hw
          exact ⟨h1, h2, h3⟩

/-- A failing `CreateMatch` whose rollback succeeds leaves the store as it was. -/
theorem CreateMatch_failed_db (env : TxEnv) (db : Store) (m : Match)
    (hrb : env.rollback = none) (h : (CreateMatch env db m).err ≠ none) :
    (CreateMatch env db m).db = db := by
  rw [CreateMatch_eq] at h ⊢
  cases hb : env.begin with
  | some e => rfl
  | none =>
    rw [hb] at h
    simp only at h ⊢
    have hbase := writeSteps_base env db m
    cases hw : writeSteps env db m with
    | mk e tx =>
      rw [hw] at h hbase
      simp only at hbase
      cases e with
      | some e =>
        simp only
        rw [(rollbackAndReturn_err env tx e).2.2 hrb, hbase]
      | none =>
        simp only at h ⊢
        cases hc : env.commit with
        | some e =>
          simp only
          rw [(rollbackAndReturn_err env tx e).2.2 hrb, hbase]
        | none =>
          rw [hc] at h
          simp at h

/-- The error and the number of rollbacks of `CreateMatch` on a started
transaction, in terms of the first failing step. -/
theorem CreateMatch_started (env : TxEnv) (db : Store) (m : Match) (hb : env.begin = none) :
    (CreateMatch env db m).err =
      (match firstStepError env db m with
       | none => none
       | some err =>
         some (.DBError (match env.rollback with | some err2 => err2 | none => err))) ∧
    (CreateMatch env db m).rollbacks =
      (match firstStepError env db m with
       | none => 0
       | some _ => 1) := by
  rw [CreateMatch_eq, hb]
  unfold firstStepError
  simp only
  cases hw : writeSteps env db m with
  | mk e tx =>
    cases e with
    | some e =>
      simp only
      exact ⟨(rollbackAndReturn_err env tx e).1, (rollbackAndReturn_err env tx e).2.1⟩
    | none =>
      simp only
      cases hc : env.commit with
      | some e =>
        simp only
        exact ⟨(rollbackAndReturn_err env tx e).1, (rollbackAndReturn_err env tx e).2.1⟩
      | none => simp

/-! ## Supporting lemmas: queries -/

theorem filter_key_eq {α β : Type} [DecidableEq β] (f : α → β) (l : List α) (a : α)
    (hnd : (l.map f).Nodup) (ha : a ∈ l) :
    l.filter (fun b => f a = f b) = [a] := by
  induction l with
  | nil => simp at ha
  | cons b l ih =>
    simp only [List.map_cons, List.nodup_cons] at hnd
    obtain ⟨hb, hl⟩ := hnd
    rcases List.mem_cons.mp ha with rfl | ha
    · have : l.filter (fun b => decide (f a = f b)) = [] := by
        rw [List.filter_eq_nil_iff]
        intro x hx
        simp only [decide_eq_true_eq]
        intro heq
        exact hb (heq ▸ List.mem_map_of_mem f hx)
      simp [List.filter_cons, this]
    · have hne : f a ≠ f b := by
        intro heq
        exact hb (heq ▸ List.mem_map_of_mem f ha)
      simp [List.filter_cons, hne, ih hl ha]

theorem lookup_player (players : List Player)
    (hnd : (players.map (fun p => p.DiscordID)).Nodup) (id : String)
    (hid : id ∈ players.map (fun p => p.DiscordID)) :
    ∃ q, q ∈ players ∧ q.DiscordID = id ∧
      players.filter (fun p => id = p.DiscordID) = [q] := by
  obtain ⟨q, hq, rfl⟩ := List.mem_map.mp hid
  exact ⟨q, hq, rfl, filter_key_eq (fun p => p.DiscordID) players q hnd hq⟩

theorem joinRoster_ids (players : List Player)
    (hnd : (players.map (fun p => p.DiscordID)).Nodup) (matchID : String) (team : Int)
    (ps : List Player) (hps : ∀ p ∈ ps, p.DiscordID ∈ players.map (fun q => q.DiscordID)) :
    (joinRoster players matchID team ps).map (fun p => p.DiscordID) =
      ps.map (fun p => p.DiscordID) := by
  induction ps with
  | nil => rfl
  | cons p rest ih =>
    obtain ⟨q, _, hq, hf⟩ := lookup_player players hnd p.DiscordID (hps p (List.mem_cons_self _ _))
    have ih' := ih (fun x hx => hps x (List.mem_cons_of_mem _ hx))
    unfold joinRoster rosterRows at ih' ⊢
    simp only [List.map_cons, List.flatMap_cons, List.map_append, hf, ih']
    simp [hq]

theorem joinRoster_eq (players : List Player)
    (hnd : (players.map (fun p => p.DiscordID)).Nodup) (matchID : String) (team : Int)
    (ps : List Player) (hps : ∀ p ∈ ps, p ∈ players) :
    joinRoster players matchID team ps = ps := by
  induction ps with
  | nil => rfl
  | cons p rest ih =>
    have hf := filter_key_eq (fun p => p.DiscordID) players p hnd (hps p (List.mem_cons_self _ _))
    have ih' := ih (fun x hx => hps x (List.mem_cons_of_mem _ hx))
    unfold joinRoster rosterRows at ih' ⊢
    simp only [List.map_cons, List.flatMap_cons, hf, ih']
    simp

theorem filter_rosterRows_same (matchID : String) (team : Int) (ps : List Player) :
    (rosterRows matchID team ps).filter (fun r => r.matchID = matchID ∧ r.team = team) =
      rosterRows matchID team ps := by
  rw [List.filter_eq_self]
  intro r hr
  unfold rosterRows at hr
  obtain ⟨p, _, rfl⟩ := List.mem_map.mp hr
  simp

theorem filter_rosterRows_other (matchID : String) (team team' : Int) (ps : List Player)
    (h : team ≠ team') :
    (rosterRows matchID team ps).filter (fun r => r.matchID = matchID ∧ r.team = team') = [] := by
  rw [List.filter_eq_nil_iff]
  intro r hr
  unfold rosterRows at hr
  obtain ⟨p, _, rfl⟩ := List.mem_map.mp hr
  simp [h]

/-- The two roster queries on the store a successful `CreateMatch` leaves. -/
theorem teamQuery_created (db : Store) (m : Match)
    (hfk : ∀ r ∈ db.matchesplayers, r.matchID ∈ db.matchesTbl.map (fun x => x.matchID))
    (hid : m.ID ∉ db.matchesTbl.map (fun r => r.matchID)) :
    teamQuery { matchesTbl := db.matchesTbl ++ [insertedRow m],
                matchesplayers := db.matchesplayers ++ rosterRows m.ID 1 m.Team1 ++
                  rosterRows m.ID 2 m.Team2,
                players := db.players } m.ID 1 = joinRoster db.players m.ID 1 m.Team1 ∧
    teamQuery { matchesTbl := db.matchesTbl ++ [insertedRow m],
                matchesplayers := db.matchesplayers ++ rosterRows m.ID 1 m.Team1 ++
                  rosterRows m.ID 2 m.Team2,
                players := db.players } m.ID 2 = joinRoster db.players m.ID 2 m.Team2 := by
  have hold : ∀ team : Int,
      db.matchesplayers.filter (fun r => r.matchID = m.ID ∧ r.team = team) = [] := by
    intro team
    rw [List.filter_eq_nil_iff]
    intro r hr
    simp only [decide_eq_true_eq, not_and]
    intro heq
    exact absurd (heq ▸ hfk r hr) hid
  unfold teamQuery joinRoster
  simp only [List.filter_append, hold, List.nil_append]
  rw [filter_rosterRows_same, filter_rosterRows_same,
    filter_rosterRows_other m.ID 2 1 m.Team2 (by decide),
    filter_rosterRows_other m.ID 1 2 m.Team1 (by decide)]
  simp

/-- The aggregate both point reads return for a match just created. -/
theorem getTeamsInMatch_created (db : Store) (m : Match)
    (hfk : ∀ r ∈ db.matchesplayers, r.matchID ∈ db.matchesTbl.map (fun x => x.matchID))
    (hid : m.ID ∉ db.matchesTbl.map (fun r => r.matchID)) :
    getTeamsInMatch none
      { matchesTbl := db.matchesTbl ++ [insertedRow m],
        matchesplayers := db.matchesplayers ++ rosterRows m.ID 1 m.Team1 ++
          rosterRows m.ID 2 m.Team2,
        players := db.players } (insertedRow m).scan =
    .ok (readBack db m) := by
  obtain ⟨h1, h2⟩ := teamQuery_created db m hfk hid
  have hscan : (insertedRow m).scan.ID = m.ID := rfl
  unfold getTeamsInMatch dbSelect
  simp only [hscan, h1, h2]
  rfl

theorem GetMatchByID_created (db : Store) (m : Match)
    (hfk : ∀ r ∈ db.matchesplayers, r.matchID ∈ db.matchesTbl.map (fun x => x.matchID))
    (hid : m.ID ∉ db.matchesTbl.map (fun r => r.matchID)) :
    GetMatchByID none
      { matchesTbl := db.matchesTbl ++ [insertedRow m],
        matchesplayers := db.matchesplayers ++ rosterRows m.ID 1 m.Team1 ++
          rosterRows m.ID 2 m.Team2,
        players := db.players } m.ID =
    .ok (readBack db m) := by
  have hold : db.matchesTbl.filter (fun r => r.matchID = m.ID) = [] := by
    rw [List.filter_eq_nil_iff]
    intro r hr
    simp only [decide_eq_true_eq]
    intro heq
    exact hid (heq ▸ List.mem_map_of_mem (fun r => r.matchID) hr)
  have hnew : (insertedRow m).matchID = m.ID := rfl
  unfold GetMatchByID
  simp only [List.filter_append, hold, List.nil_append, List.filter_cons, hnew, decide_True,
    if_true, List.filter_nil, List.map_cons, List.map_nil, dbGet]
  rw [getTeamsInMatch_created db m hfk hid]

theorem GetMatchByThreadID_created (db : Store) (m : Match)
    (hfk : ∀ r ∈ db.matchesplayers, r.matchID ∈ db.matchesTbl.map (fun x => x.matchID))
    (hid : m.ID ∉ db.matchesTbl.map (fun r => r.matchID))
    (hthread : ∀ r ∈ db.matchesTbl, r.threadID ≠ m.ThreadID) :
    GetMatchByThreadID none
      { matchesTbl := db.matchesTbl ++ [insertedRow m],
        matchesplayers := db.matchesplayers ++ rosterRows m.ID 1 m.Team1 ++
          rosterRows m.ID 2 m.Team2,
        players := db.players } m.ThreadID =
    .ok (readBack db m) := by
  have hold : db.matchesTbl.filter (fun r => r.threadID = m.ThreadID) = [] := by
    rw [List.filter_eq_nil_iff]
    intro r hr
    simp only [decide_eq_true_eq]
    exact hthread r hr
  have hnew : (insertedRow m).threadID = m.ThreadID := rfl
  unfold GetMatchByThreadID
  simp only [List.filter_append, hold, List.nil_append, List.filter_cons, hnew, decide_True,
    if_true, List.filter_nil, List.map_cons, List.map_nil, dbGet]
  rw [getTeamsInMatch_created db m hfk hid]

/-- When no row carries the identifier, `GetMatchByID` reports `sql.ErrNoRows`
inside the envelope. -/
theorem GetMatchByID_absent (db : Store) (matchID : String)
    (hid : matchID ∉ db.matchesTbl.map (fun r => r.matchID)) :
    GetMatchByID none db matchID = .error (.DBError .ErrNoRows) := by
  have hold : db.matchesTbl.filter (fun r => r.matchID = matchID) = [] := by
    rw [List.filter_eq_nil_iff]
    intro r hr
    simp only [decide_eq_true_eq]
    intro heq
    exact hid (heq ▸ List.mem_map_of_mem (fun r => r.matchID) hr)
  unfold GetMatchByID
  simp only [hold, List.map_nil, dbGet]

theorem firstStepError_forced_team2 (env : TxEnv) (db : Store) (m : Match) (j : Nat)
    (e : GoError) (hj : j < m.Team2.length)
    (he : env.exec (1 + m.Team1.length + j) = some e) :
    firstStepError env db m ≠ none := by
  unfold firstStepError writeSteps
  split
  · simp
  · rename_i tx hw
    split at hw
    · simp at hw
    · split at hw
      · simp at hw
      · rename_i tx1 _
        have := rosterSteps_forced env m.ID 2 m.Team2 (1 + m.Team1.length) j tx1 e hj he
        rw [hw] at this
        simp at this

theorem CreateMatch_err_of_step (env : TxEnv) (db : Store) (m : Match)
    (h : firstStepError env db m ≠ none) : (CreateMatch env db m).err ≠ none := by
  cases hb : env.begin with
  | some e => rw [CreateMatch_eq, hb]; simp
  | none =>
    rw [(CreateMatch_started env db m hb).1]
    cases hf : firstStepError env db m with
    | none => exact absurd hf h
    | some e => simp

theorem CreateMatch_failed_db_of_begin (env : TxEnv) (db : Store) (m : Match)
    (hrb : env.begin = none → env.rollback = none) (h : (CreateMatch env db m).err ≠ none) :
    (CreateMatch env db m).db = db := by
  cases hb : env.begin with
  | some e => rw [CreateMatch_eq, hb]
  | none => exact CreateMatch_failed_db env db m (hrb hb) h

theorem fillTeams_none (db : Store) (ms : List Match) :
    fillTeams none db ms = .ok (ms.map (withTeams db)) := by
  induction ms with
  | nil => rfl
  | cons m rest ih =>
    simp only [fillTeams, ih, getTeamsInMatch, dbSelect, List.map_cons]
    rfl

theorem withTeams_scan_row (db : Store) (r : MatchRow) : (withTeams db r.scan).row = r := rfl

theorem map_row_withTeams_scan (db : Store) (rows : List MatchRow) :
    ((rows.map MatchRow.scan).map (withTeams db)).map Match.row = rows := by
  induction rows with
  | nil => rfl
  | cons r rest ih =>
    simp only [List.map_cons, ih]
    rfl

theorem GetRunning_none (db : Store) :
    GetRunningMatchesOrderedByTimestamp none db =
      .ok (((runningQuery db).map MatchRow.scan).map (withTeams db)) := by
  unfold GetRunningMatchesOrderedByTimestamp dbSelect
  exact fillTeams_none db _

theorem GetWaiting_none (db : Store) :
    GetWaitingForVotesMatches none db =
      .ok (((db.matchesTbl.filter (fun r => r.state = -1)).map MatchRow.scan).map
        (withTeams db)) := by
  unfold GetWaitingForVotesMatches dbSelect
  exact fillTeams_none db _

theorem runningQuery_sorted (db : Store) :
    (runningQuery db).Pairwise (fun a b => a.timestamp ≤ b.timestamp) := by
  haveI : IsTotal MatchRow (fun a b => a.timestamp ≤ b.timestamp) :=
    ⟨fun a b => le_total a.timestamp b.timestamp⟩
  haveI : IsTrans MatchRow (fun a b => a.timestamp ≤ b.timestamp) :=
    ⟨fun a b c hab hbc => le_trans hab hbc⟩
  unfold runningQuery
  exact List.Pairwise.sublist (List.take_sublist _ _)
    (List.sorted_insertionSort (fun a b : MatchRow => a.timestamp ≤ b.timestamp) _)

theorem runningQuery_mem (db : Store) (r : MatchRow) (h : r ∈ runningQuery db) :
    r ∈ db.matchesTbl ∧ r.state = 0 := by
  unfold runningQuery at h
  have h1 := List.mem_of_mem_take h
  have h2 := (List.perm_insertionSort (fun a b : MatchRow => a.timestamp ≤ b.timestamp) _).subset h1
  simpa using h2

theorem runningQuery_length (db : Store) :
    (runningQuery db).length = min (db.matchesTbl.filter (fun r => r.state = 0)).length 50 := by
  unfold runningQuery
  rw [List.length_take, List.length_insertionSort, Nat.min_comm]

theorem runningQuery_oldest (db : Store) (r : MatchRow) (hr : r ∈ db.matchesTbl)
    (hs : r.state = 0) (hout : r ∉ runningQuery db) :
    ∀ x ∈ runningQuery db, x.timestamp ≤ r.timestamp := by
  haveI : IsTotal MatchRow (fun a b => a.timestamp ≤ b.timestamp) :=
    ⟨fun a b => le_total a.timestamp b.timestamp⟩
  haveI : IsTrans MatchRow (fun a b => a.timestamp ≤ b.timestamp) :=
    ⟨fun a b c hab hbc => le_trans hab hbc⟩
  have hsorted := List.sorted_insertionSort (fun a b : MatchRow => a.timestamp ≤ b.timestamp)
    (db.matchesTbl.filter (fun r => r.state = 0))
  have hmem : r ∈ (db.matchesTbl.filter (fun r => r.state = 0)).insertionSort
      (fun a b => a.timestamp ≤ b.timestamp) := by
    apply (List.perm_insertionSort _ _).symm.subset
    simp [hr, hs]
  unfold runningQuery at hout ⊢
  rw [← List.take_append_drop 50 ((db.matchesTbl.filter (fun r => r.state = 0)).insertionSort
      (fun a b => a.timestamp ≤ b.timestamp))] at hmem hsorted
  have hdrop := (List.mem_append.mp hmem).resolve_left hout
  intro x hx
  exact (List.pairwise_append.mp hsorted).2.2 x hx r hdrop

theorem activeRows_ne_nil (db : Store) (playerID : String) :
    activeRows db playerID ≠ [] ↔
      ∃ r ∈ db.matchesplayers, r.playerID = playerID ∧
        ∃ mr ∈ db.matchesTbl, mr.matchID = r.matchID ∧ mr.state ≤ 0 := by
  rw [← List.length_pos, List.length_pos_iff_exists_mem]
  unfold activeRows
  constructor
  · rintro ⟨⟨mr, r⟩, hx⟩
    simp only [List.mem_filter, List.mem_flatMap, List.mem_map, decide_eq_true_eq,
      Prod.mk.injEq] at hx
    obtain ⟨⟨mr', hmr', r', ⟨hr', hjoin⟩, rfl, rfl⟩, hp, hs⟩ := hx
    exact ⟨r', hr', hp, mr', hmr', hjoin, hs⟩
  · rintro ⟨r, hr, hp, mr, hmr, hjoin, hs⟩
    refine ⟨(mr, r), ?_⟩
    simp only [List.mem_filter, List.mem_flatMap, List.mem_map, decide_eq_true_eq,
      Prod.mk.injEq]
    exact ⟨⟨mr, hmr, r, ⟨hr, hjoin⟩, rfl, rfl⟩, hp, hs⟩

theorem IsPlayerInMatch_none (db : Store) (p : Player) :
    IsPlayerInMatch none db p = .ok (decide (activeRows db p.DiscordID ≠ [])) := by
  unfold IsPlayerInMatch
  simp only [gt_iff_lt, Nat.cast_pos, List.length_pos]

/-- The state check of `redirectHandler` does reject a state that is not a key
of the map when the session carries a non-empty "ID". -/
theorem redirectHandler_rejects (session : Session) (authorizedStates : List (String × String))
    (formState formCode sessionID : String)
    (hkey : authorizedStates.lookup formState = none)
    (hid : session.Values.lookup "ID" = some sessionID) (hne : sessionID ≠ "") :
    redirectHandler (.ok session) authorizedStates formState formCode =
      .written 400 "State does not match." := by
  unfold redirectHandler mapIndex
  simp only [hkey, hid]
  rw [if_pos]
  exact fun h => hne h.symm

/-- The state check of `redirectHandler` lets every request through whose
state is not a key of the map when the session carries no "ID". -/
theorem redirectHandler_passes (session : Session) (authorizedStates : List (String × String))
    (formState formCode : String)
    (hkey : authorizedStates.lookup formState = none)
    (hid : session.Values.lookup "ID" = none) :
    redirectHandler (.ok session) authorizedStates formState formCode = .exchange formCode := by
  unfold redirectHandler mapIndex
  simp only [hkey, hid]
  rw [if_neg]
  simp

/-! ## Supporting lemmas: the schema constraints are kept by every write -/

theorem insertMatchRow_wellFormed {db w : Store} {m : Match} (hwf : db.WellFormed)
    (h : insertMatchRow db m = .ok w) : w.WellFormed := by
  obtain ⟨rfl, hid⟩ := insertMatchRow_ok h
  obtain ⟨h1, h2, h3, h4, h5⟩ := hwf
  refine ⟨?_, h2, h3, ?_, h5⟩
  · simp only [List.map_append, List.map_cons, List.map_nil]
    rw [List.nodup_append]
    refine ⟨h1, List.nodup_singleton _, ?_⟩
    intro a ha hb
    rw [List.mem_singleton] at hb
    subst hb
    exact hid ha
  · intro r hr
    simp only [List.map_append, List.mem_append]
    exact Or.inl (h4 r hr)

theorem insertRosterRow_wellFormed {db w : Store} {matchID playerID : String} {team : Int}
    (hwf : db.WellFormed) (h : insertRosterRow db matchID playerID team = .ok w) :
    w.WellFormed := by
  obtain ⟨rfl, hp, hm, hu⟩ := insertRosterRow_ok h
  obtain ⟨h1, h2, h3, h4, h5⟩ := hwf
  refine ⟨h1, h2, ?_, ?_, ?_⟩
  · simp only [List.map_append, List.map_cons, List.map_nil]
    rw [List.nodup_append]
    refine ⟨h3, List.nodup_singleton _, ?_⟩
    intro a ha hb
    rw [List.mem_singleton] at hb
    subst hb
    exact hu ha
  · intro r hr
    rcases List.mem_append.mp hr with hr | hr
    · exact h4 r hr
    · rw [List.mem_singleton] at hr
      subst hr
      exact hm
  · intro r hr
    rcases List.mem_append.mp hr with hr | hr
    · exact h5 r hr
    · rw [List.mem_singleton] at hr
      subst hr
      exact hp

theorem Tx.run_wellFormed (tx : Tx) (fault : Option GoError)
    (stmt : Store → Except GoError Store)
    (hstmt : ∀ db w, db.WellFormed → stmt db = .ok w → w.WellFormed)
    (hwf : tx.work.WellFormed) : (tx.run fault stmt).2.work.WellFormed := by
  unfold Tx.run
  split
  · exact hwf
  · split
    · exact hwf
    · rename_i w hw
      exact hstmt _ w hwf hw

theorem rosterSteps_wellFormed (env : TxEnv) (matchID : String) (team : Int)
    (players : List Player) (k : Nat) (tx : Tx) (hwf : tx.work.WellFormed) :
    (rosterSteps env matchID team players k tx).2.work.WellFormed := by
  induction players generalizing k tx with
  | nil => exact hwf
  | cons p rest ih =>
    simp only [rosterSteps]
    have h := Tx.run_wellFormed tx (env.exec k)
      (fun db => insertRosterRow db matchID p.DiscordID team)
      (fun _ _ hdb hw => insertRosterRow_wellFormed hdb hw) hwf
    split
    · rename_i err tx1 h1
      rw [h1] at h
      exact h
    · rename_i tx1 h1
      rw [h1] at h
      exact ih _ _ h

theorem writeSteps_wellFormed (env : TxEnv) (db : Store) (m : Match) (hwf : db.WellFormed) :
    (writeSteps env db m).2.work.WellFormed := by
  unfold writeSteps
  have h := Tx.run_wellFormed { base := db, work := db } (env.exec 0)
    (fun db => insertMatchRow db m) (fun _ _ hdb hw => insertMatchRow_wellFormed hdb hw) hwf
  split
  · rename_i err tx0 h0
    rw [h0] at h
    exact h
  · rename_i tx0 h0
    rw [h0] at h
    have h' := rosterSteps_wellFormed env m.ID 1 m.Team1 1 tx0 h
    split
    · rename_i err tx1 h1
      rw [h1] at h'
      exact h'
    · rename_i tx1 h1
      rw [h1] at h'
      exact rosterSteps_wellFormed env m.ID 2 m.Team2 _ tx1 h'

theorem rollbackAndReturn_db (env : TxEnv) (tx : Tx) (err : GoError) :
    (rollbackAndReturn env tx err).db = tx.base ∨ (rollbackAndReturn env tx err).db = tx.work := by
  unfold rollbackAndReturn Tx.Rollback
  cases env.rollback <;> simp

/-- The schema constraints hold after `CreateMatch`, whatever its outcome. -/
theorem CreateMatch_wellFormed (env : TxEnv) (db : Store) (m : Match) (hwf : db.WellFormed) :
    (CreateMatch env db m).db.WellFormed := by
  rw [CreateMatch_eq]
  cases env.begin with
  | some e => exact hwf
  | none =>
    simp only
    have hbase := writeSteps_base env db m
    have hwork := writeSteps_wellFormed env db m hwf
    cases hw : writeSteps env db m with
    | mk e tx =>
      rw [hw] at hbase hwork
      simp only at hbase hwork
      have hrb : ∀ err, (rollbackAndReturn env tx err).db.WellFormed := by
        intro err
        rcases rollbackAndReturn_db env tx err with h | h
        · rw [h, hbase]; exact hwf
        · rw [h]; exact hwork
      cases e with
      | some e => exact hrb e
      | none =>
        simp only
        cases env.commit with
        | some e => exact hrb e
        | none => exact hwork

/-- The schema constraints hold after `UpdateMatch`. -/
theorem UpdateMatch_wellFormed (fault : Option GoError) (db : Store) (m : Match)
    (hwf : db.WellFormed) : (UpdateMatch fault db m).2.WellFormed := by
  unfold UpdateMatch
  cases fault with
  | some e => exact hwf
  | none =>
    have hids : (db.matchesTbl.map (fun r =>
        if r.matchID = m.ID then
          { r with state := m.State, team1score := m.Team1Score,
                   team2score := m.Team2Score, votemessageID := m.VoteMessageID }
        else r)).map (fun r => r.matchID) = db.matchesTbl.map (fun r => r.matchID) := by
      rw [List.map_map]
      apply List.map_congr_left
      intro r _
      by_cases h : r.matchID = m.ID <;> simp [h]
    obtain ⟨h1, h2, h3, h4, h5⟩ := hwf
    refine ⟨?_, h2, h3, ?_, h5⟩
    · simp only
      rw [hids]
      exact h1
    · intro r hr
      simp only
      rw [hids]
      exact h4 r hr

theorem UpdateMatch_absent (db : Store) (m : Match)
    (hid : m.ID ∉ db.matchesTbl.map (fun r => r.matchID)) :
    UpdateMatch none db m = (none, db) := by
  unfold UpdateMatch
  have : db.matchesTbl.map (fun r =>
      if r.matchID = m.ID then
        { r with state := m.State, team1score := m.Team1Score,
                 team2score := m.Team2Score, votemessageID := m.VoteMessageID }
      else r) = db.matchesTbl := by
    conv_rhs => rw [← List.map_id db.matchesTbl]
    apply List.map_congr_left
    intro r hr
    have hne : r.matchID ≠ m.ID := by
      intro heq
      exact hid (heq ▸ List.mem_map_of_mem (fun r => r.matchID) hr)
    simp [hne]
  simp only [this]

/-! ## The claims -/

/-- C1. In a well-formed store, when `CreateMatch m` returns nil, a following
`GetMatchByID m.ID` succeeds and returns a match with the identifier of `m` whose
Team1 and Team2 have the sizes of the rosters of `m` and carry the same
DiscordIDs (as multisets: the query has no ORDER BY). -/
theorem C1_create_then_get_by_id (env : TxEnv) (db : Store) (m : Match)
    (hwf : db.WellFormed) (hok : (CreateMatch env db m).err = none) :
    ∃ got, GetMatchByID none (CreateMatch env db m).db m.ID = .ok got ∧
      got.ID = m.ID ∧
      got.Team1.length = m.Team1.length ∧ got.Team2.length = m.Team2.length ∧
      (got.Team1.map (fun p => p.DiscordID)).Perm (m.Team1.map (fun p => p.DiscordID)) ∧
      (got.Team2.map (fun p => p.DiscordID)).Perm (m.Team2.map (fun p => p.DiscordID)) := by
  obtain ⟨_, hnd, _, hfk, _⟩ := hwf
  obtain ⟨hid, hdb, hps⟩ := CreateMatch_ok env db m hok
  have h1 := joinRoster_ids db.players hnd m.ID 1 m.Team1
    (fun p hp => hps p (List.mem_append_left _ hp))
  have h2 := joinRoster_ids db.players hnd m.ID 2 m.Team2
    (fun p hp => hps p (List.mem_append_right _ hp))
  refine ⟨readBack db m, by rw [hdb]; exact GetMatchByID_created db m hfk hid, rfl, ?_, ?_, ?_, ?_⟩
  · simpa [readBack] using congrArg List.length h1
  · simpa [readBack] using congrArg List.length h2
  · exact List.Perm.of_eq h1
  · exact List.Perm.of_eq h2

/-- C1 at the sample store and match. -/
theorem C1_create_then_get_by_id_witness :
    sampleStore.WellFormed ∧ (CreateMatch calmEnv sampleStore sampleMatch).err = none ∧
    ∃ got, GetMatchByID none (CreateMatch calmEnv sampleStore sampleMatch).db sampleMatch.ID
        = .ok got ∧
      got.ID = sampleMatch.ID ∧
      got.Team1.length = sampleMatch.Team1.length ∧
      got.Team2.length = sampleMatch.Team2.length ∧
      (got.Team1.map (fun p => p.DiscordID)).Perm (sampleMatch.Team1.map (fun p => p.DiscordID)) ∧
      (got.Team2.map (fun p => p.DiscordID)).Perm (sampleMatch.Team2.map (fun p => p.DiscordID)) :=
  ⟨by decide, by decide,
    C1_create_then_get_by_id calmEnv sampleStore sampleMatch (by decide) (by decide)⟩

/-- C2. When the rollback succeeds, a failing step of `CreateMatch m` (the
match-row insert, a roster insert or the commit) makes it return an error,
and a call that returns an error leaves `matches` and `matchesplayers` as they
were. In particular, when an insert of the second roster is made to fail and
no row carried the identifier before, no row of either table carries it
afterwards. -/
theorem C2_failed_create_restores_tables (env : TxEnv) (db : Store) (m : Match)
    (hrb : env.rollback = none) :
    (firstStepError env db m ≠ none → (CreateMatch env db m).err ≠ none) ∧
    ((CreateMatch env db m).err ≠ none →
      (CreateMatch env db m).db.matchesTbl = db.matchesTbl ∧
      (CreateMatch env db m).db.matchesplayers = db.matchesplayers) ∧
    (∀ j e, j < m.Team2.length → env.exec (1 + m.Team1.length + j) = some e →
      (∀ r ∈ db.matchesTbl, r.matchID ≠ m.ID) →
      (∀ r ∈ db.matchesplayers, r.matchID ≠ m.ID) →
      (CreateMatch env db m).err ≠ none ∧
      (CreateMatch env db m).db.matchesTbl.filter (fun r => r.matchID = m.ID) = [] ∧
      (CreateMatch env db m).db.matchesplayers.filter (fun r => r.matchID = m.ID) = []) := by
  refine ⟨CreateMatch_err_of_step env db m, ?_, ?_⟩
  · intro h
    rw [CreateMatch_failed_db env db m hrb h]
    exact ⟨rfl, rfl⟩
  · intro j e hj he h1 h2
    have herr := CreateMatch_err_of_step env db m
      (firstStepError_forced_team2 env db m j e hj he)
    rw [CreateMatch_failed_db env db m hrb herr]
    refine ⟨herr, ?_, ?_⟩
    · rw [List.filter_eq_nil_iff]
      intro r hr
      simpa using h1 r hr
    · rw [List.filter_eq_nil_iff]
      intro r hr
      simpa using h2 r hr

/-- C2 at the sample store, with the first insert of the second roster failing. -/
theorem C2_failed_create_restores_tables_witness :
    team2FailEnv.rollback = none ∧
    firstStepError team2FailEnv sampleStore sampleMatch ≠ none ∧
    (CreateMatch team2FailEnv sampleStore sampleMatch).err ≠ none ∧
    (CreateMatch team2FailEnv sampleStore sampleMatch).db.matchesTbl = sampleStore.matchesTbl ∧
    (CreateMatch team2FailEnv sampleStore sampleMatch).db.matchesplayers =
      sampleStore.matchesplayers ∧
    (CreateMatch team2FailEnv sampleStore sampleMatch).db.matchesTbl.filter
      (fun r => r.matchID = sampleMatch.ID) = [] ∧
    (CreateMatch team2FailEnv sampleStore sampleMatch).db.matchesplayers.filter
      (fun r => r.matchID = sampleMatch.ID) = [] :=
  have h := C2_failed_create_restores_tables team2FailEnv sampleStore sampleMatch rfl
  have hstep : firstStepError team2FailEnv sampleStore sampleMatch ≠ none := by decide
  have h3 := h.2.2 0 (.driver 1) (by decide) (by decide) (by decide) (by decide)
  ⟨rfl, hstep, h.1 hstep, (h.2.1 (h.1 hstep)).1, (h.2.1 (h.1 hstep)).2, h3.2.1, h3.2.2⟩

/-- C3, refuted as stated. First, a second `CreateMatch` with an identifier
already stored fails on the primary key, and `GetMatchByID` then returns the
stored match. Second, when a roster insert fails and the rollback fails too,
`CreateMatch` returns an error while the match row stays readable. -/
theorem C3_failed_create_not_always_absent :
    (storeWithMatch.WellFormed ∧
      (CreateMatch calmEnv storeWithMatch sampleMatch).err = some (.DBError .uniqueViolation) ∧
      GetMatchByID none (CreateMatch calmEnv storeWithMatch sampleMatch).db sampleMatch.ID =
        .ok sampleMatch) ∧
    (sampleStore.WellFormed ∧
      (CreateMatch brokenRollbackEnv sampleStore sampleMatch).err =
        some (.DBError (.driver 2)) ∧
      GetMatchByID none (CreateMatch brokenRollbackEnv sampleStore sampleMatch).db
        sampleMatch.ID = .ok { sampleMatch with Team2 := [] }) := by
  decide

/-- C3, amended. When `CreateMatch m` returns an error, no row of `matches`
carried the identifier of `m` before the call, and the rollback (attempted
whenever the transaction had started) succeeds, a following `GetMatchByID m.ID`
returns the not-found error. -/
theorem C3_failed_create_then_not_found (env : TxEnv) (db : Store) (m : Match)
    (hfresh : m.ID ∉ db.matchesTbl.map (fun r => r.matchID))
    (hrb : env.begin = none → env.rollback = none)
    (herr : (CreateMatch env db m).err ≠ none) :
    GetMatchByID none (CreateMatch env db m).db m.ID = .error (.DBError .ErrNoRows) := by
  rw [CreateMatch_failed_db_of_begin env db m hrb herr]
  exact GetMatchByID_absent db m.ID hfresh

/-- C3, amended, at the sample store with the first insert of the second
roster failing. -/
theorem C3_failed_create_then_not_found_witness :
    sampleMatch.ID ∉ sampleStore.matchesTbl.map (fun r => r.matchID) ∧
    (team2FailEnv.begin = none → team2FailEnv.rollback = none) ∧
    (CreateMatch team2FailEnv sampleStore sampleMatch).err ≠ none ∧
    GetMatchByID none (CreateMatch team2FailEnv sampleStore sampleMatch).db sampleMatch.ID =
      .error (.DBError .ErrNoRows) :=
  ⟨by decide, fun _ => rfl, by decide,
    C3_failed_create_then_not_found team2FailEnv sampleStore sampleMatch (by decide)
      (fun _ => rfl) (by decide)⟩

/-- C4. When `db.Beginx` fails, `CreateMatch` returns the envelope of the begin
error and calls no rollback. When a step of a started transaction fails with
error `e` (match-row insert, roster insert or commit), the rollback is called
once; the envelope carries `e` when the rollback succeeds and the rollback's
error when it fails, so it carries `e` exactly when the rollback succeeds,
provided the two errors differ. -/
theorem C4_rollback_and_wrapped_cause (env : TxEnv) (db : Store) (m : Match) :
    (∀ e, env.begin = some e →
      (CreateMatch env db m).err = some (.DBError e) ∧ (CreateMatch env db m).rollbacks = 0) ∧
    (env.begin = none → ∀ e, firstStepError env db m = some e →
      (CreateMatch env db m).rollbacks = 1 ∧
      (env.rollback = none → (CreateMatch env db m).err = some (.DBError e)) ∧
      (∀ e2, env.rollback = some e2 → (CreateMatch env db m).err = some (.DBError e2)) ∧
      (∀ e2, env.rollback = some e2 → e2 ≠ e →
        ((CreateMatch env db m).err = some (.DBError e) ↔ env.rollback = none))) := by
  constructor
  · intro e hb
    rw [CreateMatch_eq, hb]
    exact ⟨rfl, rfl⟩
  · intro hb e he
    obtain ⟨h1, h2⟩ := CreateMatch_started env db m hb
    rw [he] at h1 h2
    simp only at h1 h2
    refine ⟨h2, ?_, ?_, ?_⟩
    · intro hr
      rw [h1, hr]
    · intro e2 hr
      rw [h1, hr]
    · intro e2 hr hne
      rw [h1, hr]
      simp [hne]

/-- C4 at the sample store: a begin failure, a failing roster insert with a
successful rollback, and the same with a failing rollback. -/
theorem C4_rollback_and_wrapped_cause_witness :
    ((CreateMatch noBeginEnv sampleStore sampleMatch).err = some (.DBError (.driver 7)) ∧
      (CreateMatch noBeginEnv sampleStore sampleMatch).rollbacks = 0) ∧
    ((CreateMatch team2FailEnv sampleStore sampleMatch).rollbacks = 1 ∧
      (CreateMatch team2FailEnv sampleStore sampleMatch).err = some (.DBError (.driver 1))) ∧
    ((CreateMatch brokenRollbackEnv sampleStore sampleMatch).rollbacks = 1 ∧
      (CreateMatch brokenRollbackEnv sampleStore sampleMatch).err =
        some (.DBError (.driver 2)) ∧
      ((CreateMatch brokenRollbackEnv sampleStore sampleMatch).err =
        some (.DBError (.driver 1)) ↔ brokenRollbackEnv.rollback = none)) :=
  have ha := (C4_rollback_and_wrapped_cause noBeginEnv sampleStore sampleMatch).1
    (.driver 7) rfl
  have hb := (C4_rollback_and_wrapped_cause team2FailEnv sampleStore sampleMatch).2
    rfl (.driver 1) (by decide)
  have hc := (C4_rollback_and_wrapped_cause brokenRollbackEnv sampleStore sampleMatch).2
    rfl (.driver 1) (by decide)
  ⟨ha, ⟨hb.1, hb.2.1 rfl⟩, ⟨hc.1, hc.2.2.1 (.driver 2) rfl,
    hc.2.2.2 (.driver 2) rfl (by decide)⟩⟩

/-- C5, refuted as stated. First, a match created with state -1 and scores 3
and 1 reads back with state 0 and scores 0: the insert names five columns
only. Second, after a match is created in a thread that already has a
stored match, the read by thread returns the older match. -/
theorem C5_round_trip_not_identical :
    (sampleStore.WellFormed ∧
      (∀ p ∈ votedMatch.Team1 ++ votedMatch.Team2, p ∈ sampleStore.players) ∧
      (CreateMatch calmEnv sampleStore votedMatch).err = none ∧
      GetMatchByID none (CreateMatch calmEnv sampleStore votedMatch).db votedMatch.ID =
        .ok { votedMatch with State := 0, Team1Score := 0, Team2Score := 0 } ∧
      votedMatch.State = -1 ∧ votedMatch.Team1Score = 3 ∧ votedMatch.Team2Score = 1) ∧
    (storeWithMatch.WellFormed ∧
      (∀ p ∈ rematch.Team1 ++ rematch.Team2, p ∈ storeWithMatch.players) ∧
      (CreateMatch calmEnv storeWithMatch rematch).err = none ∧
      GetMatchByThreadID none (CreateMatch calmEnv storeWithMatch rematch).db rematch.ThreadID =
        .ok sampleMatch ∧
      sampleMatch.ID ≠ rematch.ID) := by
  decide

/-- C5, amended. In a well-formed store holding every roster player of `m`,
when `CreateMatch m` returns nil, `GetMatchByID m.ID` returns a match whose
matchID, threadID, messageID, votemessageID and timestamp are those of `m`,
whose state and scores are the column defaults 0, and whose rosters are those
of `m` up to order; `GetMatchByThreadID m.ThreadID` returns the same match
when no row stored before the call carries that thread. -/
theorem C5_round_trip_inserted_columns (env : TxEnv) (db : Store) (m : Match)
    (hwf : db.WellFormed) (hplayers : ∀ p ∈ m.Team1 ++ m.Team2, p ∈ db.players)
    (hok : (CreateMatch env db m).err = none) :
    ∃ got, GetMatchByID none (CreateMatch env db m).db m.ID = .ok got ∧
      got.ID = m.ID ∧ got.ThreadID = m.ThreadID ∧ got.MessageID = m.MessageID ∧
      got.VoteMessageID = m.VoteMessageID ∧ got.Timestamp = m.Timestamp ∧
      got.State = 0 ∧ got.Team1Score = 0 ∧ got.Team2Score = 0 ∧
      got.Team1.Perm m.Team1 ∧ got.Team2.Perm m.Team2 ∧
      ((∀ r ∈ db.matchesTbl, r.threadID ≠ m.ThreadID) →
        GetMatchByThreadID none (CreateMatch env db m).db m.ThreadID = .ok got) := by
  obtain ⟨_, hnd, _, hfk, _⟩ := hwf
  obtain ⟨hid, hdb, _⟩ := CreateMatch_ok env db m hok
  have h1 := joinRoster_eq db.players hnd m.ID 1 m.Team1
    (fun p hp => hplayers p (List.mem_append_left _ hp))
  have h2 := joinRoster_eq db.players hnd m.ID 2 m.Team2
    (fun p hp => hplayers p (List.mem_append_right _ hp))
  refine ⟨readBack db m, by rw [hdb]; exact GetMatchByID_created db m hfk hid,
    rfl, rfl, rfl, rfl, rfl, rfl, rfl, rfl, ?_, ?_, ?_⟩
  · exact List.Perm.of_eq h1
  · exact List.Perm.of_eq h2
  · intro hthread
    rw [hdb]
    exact GetMatchByThreadID_created db m hfk hid hthread

/-- C5, amended, at the sample store and the match handed over in state -1. -/
theorem C5_round_trip_inserted_columns_witness :
    sampleStore.WellFormed ∧
    (∀ p ∈ votedMatch.Team1 ++ votedMatch.Team2, p ∈ sampleStore.players) ∧
    (CreateMatch calmEnv sampleStore votedMatch).err = none ∧
    (∀ r ∈ sampleStore.matchesTbl, r.threadID ≠ votedMatch.ThreadID) ∧
    ∃ got, GetMatchByID none (CreateMatch calmEnv sampleStore votedMatch).db votedMatch.ID
        = .ok got ∧
      got.ID = votedMatch.ID ∧ got.ThreadID = votedMatch.ThreadID ∧
      got.MessageID = votedMatch.MessageID ∧
      got.VoteMessageID = votedMatch.VoteMessageID ∧ got.Timestamp = votedMatch.Timestamp ∧
      got.State = 0 ∧ got.Team1Score = 0 ∧ got.Team2Score = 0 ∧
      got.Team1.Perm votedMatch.Team1 ∧ got.Team2.Perm votedMatch.Team2 ∧
      GetMatchByThreadID none (CreateMatch calmEnv sampleStore votedMatch).db
        votedMatch.ThreadID = .ok got :=
  have ⟨got, h⟩ := C5_round_trip_inserted_columns calmEnv sampleStore votedMatch
    (by decide) (by decide) (by decide)
  ⟨by decide, by decide, by decide, by decide, got, h.1, h.2.1, h.2.2.1, h.2.2.2.1,
    h.2.2.2.2.1, h.2.2.2.2.2.1, h.2.2.2.2.2.2.1, h.2.2.2.2.2.2.2.1, h.2.2.2.2.2.2.2.2.1,
    h.2.2.2.2.2.2.2.2.2.1, h.2.2.2.2.2.2.2.2.2.2.1,
    h.2.2.2.2.2.2.2.2.2.2.2 (by decide)⟩

/-- C6. Whatever the match argument and its rosters, `UpdateMatch m` leaves
`matchesplayers` (and `players`) untouched, keeps the rows of `matches` in place
with their matchID, threadID, messageID and timestamp, leaves every row with
another matchID as it was, and, when the statement succeeds, sets state,
scores and votemessageID of the rows with the matchID of `m`. -/
theorem C6_update_frame (fault : Option GoError) (db : Store) (m : Match) :
    (UpdateMatch fault db m).2.matchesplayers = db.matchesplayers ∧
    (UpdateMatch fault db m).2.players = db.players ∧
    List.Forall₂
      (fun old new =>
        new.matchID = old.matchID ∧ new.threadID = old.threadID ∧
        new.messageID = old.messageID ∧ new.timestamp = old.timestamp ∧
        (old.matchID ≠ m.ID → new = old) ∧
        (old.matchID = m.ID → fault = none →
          new.state = m.State ∧ new.team1score = m.Team1Score ∧
          new.team2score = m.Team2Score ∧ new.votemessageID = m.VoteMessageID))
      db.matchesTbl (UpdateMatch fault db m).2.matchesTbl := by
  unfold UpdateMatch
  cases fault with
  | some e =>
    refine ⟨rfl, rfl, ?_⟩
    rw [List.forall₂_same]
    intro r _
    simp
  | none =>
    refine ⟨rfl, rfl, ?_⟩
    simp only
    rw [List.forall₂_map_right_iff, List.forall₂_same]
    intro r _
    by_cases h : r.matchID = m.ID <;> simp [h]

/-- C6 at the store holding the sample match, updated with swapped rosters. -/
theorem C6_update_frame_witness :
    (UpdateMatch none storeWithMatch finishedMatch).2 =
      { storeWithMatch with matchesTbl :=
          [{ matchID := "m1", threadID := "t1", messageID := "msg1", votemessageID := "vote9",
             timestamp := 100, state := 1, team1score := 3, team2score := 2 }] } ∧
    (UpdateMatch none storeWithMatch finishedMatch).2.matchesplayers =
      storeWithMatch.matchesplayers :=
  ⟨by decide, (C6_update_frame none storeWithMatch finishedMatch).1⟩

/-- C7. On a store that answers, `GetRunningMatchesOrderedByTimestamp` returns
min(N, 50) matches where N is the number of rows with state 0; each is a stored
row with state 0 and its rosters read; timestamps are non-decreasing; a
running row left out is not older than any returned one; the list is empty
when N is 0. `GetWaitingForVotesMatches` returns exactly the rows with state -1,
M of them, and the empty list when M is 0. -/
theorem C7_state_filters (db : Store) :
    (∃ ms, GetRunningMatchesOrderedByTimestamp none db = .ok ms ∧
      ms.length = min (db.matchesTbl.filter (fun r => r.state = 0)).length 50 ∧
      (∀ x ∈ ms, x.State = 0 ∧ x.row ∈ db.matchesTbl ∧
        x.Team1 = teamQuery db x.ID 1 ∧ x.Team2 = teamQuery db x.ID 2) ∧
      (ms.map (fun x => x.Timestamp)).Sorted (fun a b => a ≤ b) ∧
      (∀ r ∈ db.matchesTbl, r.state = 0 → r ∉ ms.map Match.row →
        ∀ x ∈ ms, x.Timestamp ≤ r.timestamp) ∧
      (db.matchesTbl.filter (fun r => r.state = 0) = [] → ms = [])) ∧
    (∃ ws, GetWaitingForVotesMatches none db = .ok ws ∧
      (ws.map Match.row).Perm (db.matchesTbl.filter (fun r => r.state = -1)) ∧
      ws.length = (db.matchesTbl.filter (fun r => r.state = -1)).length ∧
      (∀ x ∈ ws, x.Team1 = teamQuery db x.ID 1 ∧ x.Team2 = teamQuery db x.ID 2) ∧
      (db.matchesTbl.filter (fun r => r.state = -1) = [] → ws = [])) := by
  constructor
  · refine ⟨_, GetRunning_none db, ?_, ?_, ?_, ?_, ?_⟩
    · simp [runningQuery_length]
    · intro x hx
      simp only [List.mem_map, exists_exists_and_eq_and] at hx
      obtain ⟨r, hr, rfl⟩ := hx
      obtain ⟨h1, h2⟩ := runningQuery_mem db r hr
      exact ⟨h2, h1, rfl, rfl⟩
    · have h := runningQuery_sorted db
      unfold List.Sorted
      rw [List.map_map, List.map_map, List.pairwise_map]
      exact h
    · intro r hr hs hout x hx
      rw [map_row_withTeams_scan] at hout
      simp only [List.mem_map, exists_exists_and_eq_and] at hx
      obtain ⟨y, hy, rfl⟩ := hx
      exact runningQuery_oldest db r hr hs hout y hy
    · intro hnil
      simp [runningQuery, hnil]
  · refine ⟨_, GetWaiting_none db, ?_, ?_, ?_, ?_⟩
    · rw [map_row_withTeams_scan]
    · simp
    · intro x hx
      simp only [List.mem_map, exists_exists_and_eq_and] at hx
      obtain ⟨r, _, rfl⟩ := hx
      exact ⟨rfl, rfl⟩
    · intro hnil
      simp [hnil]

/-- C7 at a store with two running matches stored youngest first, two
awaiting votes and a finished one, and at a store without matches. -/
theorem C7_state_filters_witness :
    (GetRunningMatchesOrderedByTimestamp none busyStore).map (List.map Match.row) =
      .ok [sampleRow "c" 20 0, sampleRow "a" 30 0] ∧
    (GetWaitingForVotesMatches none busyStore).map (List.map Match.row) =
      .ok [sampleRow "b" 10 (-1), sampleRow "e" 40 (-1)] ∧
    GetRunningMatchesOrderedByTimestamp none sampleStore = .ok [] ∧
    GetWaitingForVotesMatches none sampleStore = .ok [] ∧
    ∃ ms, GetRunningMatchesOrderedByTimestamp none busyStore = .ok ms ∧ ms.length = 2 :=
  have ⟨ms, h⟩ := (C7_state_filters busyStore).1
  ⟨by decide, by decide, by decide, by decide, ms, h.1, h.2.1.trans (by decide)⟩

/-- C8. When the count query succeeds, `IsPlayerInMatch p` is true exactly when
some roster row of `p` belongs to a stored match with state <= 0. So it is true
when `p` has a roster row in a match with state 0 or -1, and false when every
match in which `p` has a roster row has a positive state, which includes a
player without roster rows. -/
theorem C8_active_match_gate (db : Store) (p : Player) :
    ∃ b, IsPlayerInMatch none db p = .ok b ∧
      (b = true ↔ ∃ r ∈ db.matchesplayers, r.playerID = p.DiscordID ∧
        ∃ mr ∈ db.matchesTbl, mr.matchID = r.matchID ∧ mr.state ≤ 0) ∧
      ((∃ r ∈ db.matchesplayers, r.playerID = p.DiscordID ∧
        ∃ mr ∈ db.matchesTbl, mr.matchID = r.matchID ∧ (mr.state = 0 ∨ mr.state = -1)) →
        b = true) ∧
      ((∀ r ∈ db.matchesplayers, r.playerID = p.DiscordID →
        ∀ mr ∈ db.matchesTbl, mr.matchID = r.matchID → 0 < mr.state) → b = false) := by
  have hiff : decide (activeRows db p.DiscordID ≠ []) = true ↔
      ∃ r ∈ db.matchesplayers, r.playerID = p.DiscordID ∧
        ∃ mr ∈ db.matchesTbl, mr.matchID = r.matchID ∧ mr.state ≤ 0 := by
    rw [decide_eq_true_eq]
    exact activeRows_ne_nil db p.DiscordID
  refine ⟨_, IsPlayerInMatch_none db p, hiff, ?_, ?_⟩
  · rintro ⟨r, hr, hp, mr, hmr, hjoin, hs⟩
    apply hiff.mpr
    refine ⟨r, hr, hp, mr, hmr, hjoin, ?_⟩
    rcases hs with hs | hs <;> omega
  · intro hall
    rw [Bool.eq_false_iff]
    intro hb
    obtain ⟨r, hr, hp, mr, hmr, hjoin, hs⟩ := hiff.mp hb
    have := hall r hr hp mr hmr hjoin
    omega

/-- C8 at a store where player 1 is in a running and a finished match,
player 2 in a match awaiting votes, player 3 in a finished match only and
player 4 in none. -/
theorem C8_active_match_gate_witness :
    IsPlayerInMatch none busyStore (samplePlayer 1) = .ok true ∧
    IsPlayerInMatch none busyStore (samplePlayer 2) = .ok true ∧
    IsPlayerInMatch none busyStore (samplePlayer 3) = .ok false ∧
    IsPlayerInMatch none busyStore (samplePlayer 4) = .ok false ∧
    ∃ b, IsPlayerInMatch none busyStore (samplePlayer 3) = .ok b ∧ b = false :=
  have ⟨b, h⟩ := C8_active_match_gate busyStore (samplePlayer 3)
  ⟨by decide, by decide, by decide, by decide, b, h.1, h.2.2.2 (by decide)⟩

/-- C9. When no row of `matches` carries the identifier of `m`, `UpdateMatch m`
(its one statement accepted by the driver) returns nil and leaves the store as
it was, and a following `GetMatchByID m.ID` returns the not-found error. -/
theorem C9_update_absent_match (db : Store) (m : Match)
    (hid : m.ID ∉ db.matchesTbl.map (fun r => r.matchID)) :
    (UpdateMatch none db m).1 = none ∧ (UpdateMatch none db m).2 = db ∧
    GetMatchByID none (UpdateMatch none db m).2 m.ID = .error (.DBError .ErrNoRows) := by
  rw [UpdateMatch_absent db m hid]
  exact ⟨rfl, rfl, GetMatchByID_absent db m.ID hid⟩

/-- C9 at the store holding the sample match only, updated with another
identifier. -/
theorem C9_update_absent_match_witness :
    rematch.ID ∉ storeWithMatch.matchesTbl.map (fun r => r.matchID) ∧
    (UpdateMatch none storeWithMatch rematch).1 = none ∧
    (UpdateMatch none storeWithMatch rematch).2 = storeWithMatch ∧
    GetMatchByID none (UpdateMatch none storeWithMatch rematch).2 rematch.ID =
      .error (.DBError .ErrNoRows) :=
  ⟨by decide, C9_update_absent_match storeWithMatch rematch (by decide)⟩

/-- C10, evaluated at the failing input. After `authHandler` has issued the state
"issued" for the session "sid", a callback whose session holds no "ID" value
and whose state "forged" is not a key of the map is not answered with 400:
both sides of the comparison are the empty string and the handler goes on to
the token exchange. The same happens for the state "issued" once
`clearAuthorizedStates` has removed it, and for a session whose "ID" value is
the empty string. A session with a non-empty "ID" is answered with 400. -/
theorem C10_state_check_bypassed :
    (authHandler (.ok { Values := [] }) [] "sid" "issued" id).2.1 = [("issued", "sid")] ∧
    List.lookup "forged" [("issued", "sid")] = none ∧
    redirectHandler (.ok { Values := [] }) [("issued", "sid")] "forged" "code" =
      .exchange "code" ∧
    List.lookup "issued" (clearAuthorizedStates [("issued", "sid")]) = none ∧
    redirectHandler (.ok { Values := [] }) (clearAuthorizedStates [("issued", "sid")])
      "issued" "code" = .exchange "code" ∧
    redirectHandler (.ok { Values := [("ID", "")] }) [("issued", "sid")] "forged" "code" =
      .exchange "code" ∧
    redirectHandler (.ok { Values := [("ID", "sid")] }) [("issued", "sid")] "forged" "code" =
      .written 400 "State does not match." := by
  decide

end OmegaStrikers
